import Mathlib

/-!
Verification development for the ReportsService repository: a shallow
embedding of the report/payment/pricing core (pricing.py, payment.py,
db/service.py and the endpoint handlers in api/endpoints) together with
theorems settling the specification claims.

Conventions of the embedding:
* Python `Decimal` money values are exact rationals (`ℚ`).
* Python `float` (IEEE-754 binary64) values are also carried as exact
  rationals; every arithmetic operation that Python performs on floats is
  followed by `roundDouble`, correct rounding to 53 significand bits
  (round-to-nearest, ties-to-even), which is exactly what CPython's doubles
  do for the magnitudes that occur here (no overflow/subnormals).
* Timestamps (`utc_now()`, `created_at`, promocode windows) are modelled as
  integers: only their ordering is ever consulted.
* Opaque identifiers (UUIDs, promo-code strings, cancellation-reason
  strings) are modelled as naturals: only equality is ever consulted.
* Raised Python exceptions / HTTP error responses become `Except` errors.
-/

/-- Errors raised by the embedded code: HTTP-level typed exceptions from
api/exceptions.py plus generic Python exceptions. -/
inductive PyErr where
  | notFound
  | forbidden
  | notParsed
  | notPayed
  | noPrice
  | alreadyPayed
  | paymentInProgress
  | valueError
  | typeError
  | attributeError
  | jwtError
  deriving DecidableEq, Repr

/-- models/report.py: ParseStatus. -/
inductive ParseStatus where
  | in_progress
  | parsed
  | not_parsed
  deriving DecidableEq, Repr

/-- models/report.py: PaymentStatus. -/
inductive PaymentStatus where
  | not_payed
  | in_progress
  | payed
  | error
  deriving DecidableEq, Repr

/-- models/payment.py: PromocodeUsage. -/
inductive PromocodeUsage where
  | not_set
  | success
  | not_exist
  | expired
  deriving DecidableEq, Repr

/-- models/payment.py: YookassaEvent. -/
inductive YookassaEvent where
  | waiting_for_capture
  | succeeded
  | cancelled
  | refund_succeeded
  deriving DecidableEq, Repr

/-- models/payment.py: Promocode. `promocode` (the code string) is an opaque
identifier, datetimes are integer timestamps. -/
structure Promocode where
  promocode : ℕ
  user_id : Option ℕ
  valid_from : ℤ
  valid_to : ℤ
  rest_usages : ℤ
  discount : ℤ
  deriving DecidableEq, Repr

/-- models/payment.py: Price (fields exactly as in the source model:
start_price, final_price, discount, promocode_usage; the model has no
used_promocode field). -/
structure Price where
  start_price : ℚ
  final_price : ℚ
  discount : ℤ
  promocode_usage : PromocodeUsage
  deriving DecidableEq, Repr

/-- models/report.py: the persisted report row (fields consulted by the
embedded operations). -/
structure Report where
  report_id : ℕ
  user_id : ℕ
  created_at : ℤ
  parse_status : ParseStatus
  payment_status : PaymentStatus
  price : Option ℚ
  parsed_at : Option ℤ
  broker : Option ℕ
  period_start_year : Option ℤ
  period_end_year : Option ℤ
  year : Option ℤ
  parse_note : Option ℕ
  parser_version : Option ℕ
  is_deleted : Bool
  deleted_at : Option ℤ
  payment_status_updated_at : Option ℤ
  deriving DecidableEq, Repr

/-- db/models.py: one report_rows record; the payload columns that no claim
inspects are collapsed into an opaque `payload`. -/
structure DbRow where
  report_id : ℕ
  row_n : ℕ
  income_year : ℤ
  payload : ℕ
  deriving DecidableEq, Repr

/-- models/report.py: one row of a parse result (payload collapsed). -/
structure ParsedRow where
  income_year : ℤ
  payload : ℕ
  deriving DecidableEq, Repr

/-- models/report.py: ParsedReport (rows plus the metadata the ingestion
endpoint reads; period is kept as its two endpoint years, the only parts
consulted). -/
structure ParsedReport where
  broker : ℕ
  version : ℕ
  period_start_year : ℤ
  period_end_year : ℤ
  note : Option ℕ
  rows : List ParsedRow
  deriving DecidableEq, Repr

/-- models/report.py: ParsingResult. -/
structure ParsingResult where
  parsed_report : Option ParsedReport
  message : Option ℕ
  is_parsed : Bool
  deriving DecidableEq, Repr

/-- models/report.py: ExtendedParsedReportInfo (broker/version/period/note
plus derived year and price), the record update_parsed_report persists. -/
structure ExtendedParsedReportInfo where
  broker : ℕ
  version : ℕ
  period_start_year : ℤ
  period_end_year : ℤ
  note : Option ℕ
  year : Option ℤ
  price : ℚ
  deriving DecidableEq, Repr

/-- The relational state owned by the Report Store: the reports, report_rows
and promocodes tables. -/
structure DBState where
  reports : List Report
  rows : List DbRow
  promocodes : List Promocode
  deriving DecidableEq, Repr

/-! ### Exact model of Python binary64 float arithmetic -/

/-- Floor of a rational as an integer (Euclidean division of the numerator
by the positive denominator), kept explicit so that it evaluates inside the
kernel. -/
def ratFloorZ (q : ℚ) : ℤ := Int.ediv q.num (q.den : ℤ)

/-- Round `x` to the nearest integer multiple of the positive granule `g`,
ties to the even multiple (the IEEE-754 / CPython rounding rule). -/
def roundHalfEvenMul (g x : ℚ) : ℚ :=
  let q : ℚ := x / g
  let f : ℤ := ratFloorZ q
  let r : ℚ := q - f
  if r < 1/2 then f * g
  else if 1/2 < r then (f + 1) * g
  else if f % 2 = 0 then f * g else (f + 1) * g

/-- `2 ^ e` as a rational, for an integer exponent. -/
def pow2z (e : ℤ) : ℚ :=
  match e with
  | Int.ofNat n => ((2 ^ n : ℕ) : ℚ)
  | Int.negSucc n => 1 / ((2 ^ (n + 1) : ℕ) : ℚ)

/-- Scale a positive rational into `[1, 2)` by repeated doubling/halving,
returning the binary exponent; fuel-driven so that it is structurally
recursive (284 doublings/halvings cover every magnitude arising here). -/
def normExp2 : ℕ → ℚ → ℤ → ℤ
  | 0, _, e => e
  | fuel + 1, x, e =>
    if x < 1 then normExp2 fuel (x * 2) (e - 1)
    else if 2 ≤ x then normExp2 fuel (x / 2) (e + 1)
    else e

/-- Correctly round an exact rational to IEEE-754 binary64: round to 53
significand bits, nearest, ties to even (normal range only, which covers
every value this code base manipulates). -/
def roundDouble (x : ℚ) : ℚ :=
  if x = 0 then 0
  else if x < 0 then - roundHalfEvenMul (pow2z (normExp2 284 (-x) 0 - 52)) (-x)
  else roundHalfEvenMul (pow2z (normExp2 284 x 0 - 52)) x

/-- Python `float(d)` on a `Decimal` carrying the exact value `d`: the
nearest double. -/
def pyFloat (d : ℚ) : ℚ := roundDouble d

/-- Python true division `a / b` of two ints: the correctly rounded double. -/
def pyDivInt (a b : ℤ) : ℚ := roundDouble ((a : ℚ) / (b : ℚ))

/-- Python float subtraction: correctly rounded. -/
def pySub (a b : ℚ) : ℚ := roundDouble (a - b)

/-- Python float multiplication: correctly rounded. -/
def pyMul (a b : ℚ) : ℚ := roundDouble (a * b)

/-- Python `Decimal(str(round(x, 2)))` for a double of exact value `x`: the
multiple of 1/100 nearest to `x` (ties to even; a double is never an exact
tie between hundredths, and `str` of the resulting double reproduces that
hundredth exactly). -/
def pyRound2 (x : ℚ) : ℚ := roundHalfEvenMul (1/100) x

/-- The `final_price_float = float(report.price) * (1 - discount / 100)`;
`final_price = Decimal(str(round(final_price_float, 2)))` computation shared
verbatim by pricing.py and payment.py. -/
def finalPriceFloat (start_price : ℚ) (discount : ℤ) : ℚ :=
  pyRound2 (pyMul (pyFloat start_price) (pySub 1 (pyDivInt discount 100)))

/-! ### pricing.py -/

/-- pricing.py, `thresholds_calculator` inner `for i, n_rows_thr in
enumerate(...)` loop over the zipped thresholds/prices: the first threshold
with `n_rows <= n_rows_thr` selects its price; falling off the end (`else`
of the `for`) selects nothing. -/
def thresholdsScan (n_rows : ℤ) : List (ℤ × ℚ) → Option ℚ
  | [] => none
  | (thr, p) :: rest => if n_rows ≤ thr then some p else thresholdsScan n_rows rest

/-- The Python check `sorted(n_rows_thresholds) == n_rows_thresholds`: a
list equals its ascending sort exactly when each element is at most its
successor. -/
def isSortedAsc : List ℤ → Bool
  | [] => true
  | [_] => true
  | a :: b :: rest => if a ≤ b then isSortedAsc (b :: rest) else false

/-- pricing.py, `thresholds_calculator(parsed_report, n_rows_thresholds,
prices)`: validates `len(n_rows_thresholds) == len(prices) - 1` and
sortedness (raising ValueError otherwise), then picks the price of the first
threshold at or above the row count, defaulting to `prices[-1]`. Only the
row count of the parsed report is consulted. -/
def thresholds_calculator (n_rows : ℕ) (n_rows_thresholds : List ℤ)
    (prices : List ℚ) : Except PyErr ℚ :=
  if (n_rows_thresholds.length : ℤ) ≠ (prices.length : ℤ) - 1 then
    Except.error PyErr.valueError
  else if isSortedAsc n_rows_thresholds = false then
    Except.error PyErr.valueError
  else
    match thresholdsScan (n_rows : ℤ) (n_rows_thresholds.zip prices) with
    | some p => Except.ok p
    | none => Except.ok (prices.getLastD 0)

/-- pricing.py, `PriceService.get_price(report, promocode,
promocode_not_exist)`. `now` stands for `utc_now()`. Returns `none` when
`report.price` is null, in which case the Python code raises a TypeError at
`float(report.price)`. The `used_promocode` local of the source is computed
but dropped: the `Price` model has no such field. -/
def PriceService.get_price (report : Report) (promocode : Option Promocode)
    (promocode_not_exist : Bool) (now : ℤ) : Option Price :=
  let discount : ℤ := 0
  let usageAndDiscount : PromocodeUsage × ℤ :=
    match promocode with
    | none =>
      if promocode_not_exist then (PromocodeUsage.not_exist, discount)
      else (PromocodeUsage.not_set, discount)
    | some pc =>
      if pc.rest_usages ≤ 0 ∨ (pc.user_id ≠ none ∧ pc.user_id ≠ some report.user_id)
      then (PromocodeUsage.not_exist, discount)
      else if pc.valid_from > now ∨ pc.valid_to < now then
        (PromocodeUsage.expired, discount)
      else (PromocodeUsage.success, pc.discount)
  match report.price with
  | none => none
  | some start_price =>
    some { start_price := start_price
           final_price := finalPriceFloat start_price usageAndDiscount.2
           discount := usageAndDiscount.2
           promocode_usage := usageAndDiscount.1 }

/-! ### payment.py -/

/-- payment.py, `PaymentService.get_price_with_promocode(report, promocode)`.
`now` stands for `utc_now()`; `none` models the TypeError raised at
`float(report.price)` when the price is null. -/
def PaymentService.get_price_with_promocode (report : Report)
    (promocode : Option Promocode) (now : ℤ) : Option Price :=
  let discount : ℤ := 0
  let usageAndDiscount : PromocodeUsage × ℤ :=
    match promocode with
    | none => (PromocodeUsage.not_exist, discount)
    | some pc =>
      if pc.rest_usages ≤ 0
          ∨ (pc.user_id ≠ none ∧ pc.user_id ≠ some report.user_id) then
        (PromocodeUsage.not_exist, discount)
      else if pc.valid_from > now ∨ pc.valid_to < now then
        (PromocodeUsage.expired, discount)
      else (PromocodeUsage.success, pc.discount)
  match report.price with
  | none => none
  | some start_price =>
    some { start_price := start_price
           final_price := finalPriceFloat start_price usageAndDiscount.2
           discount := usageAndDiscount.2
           promocode_usage := usageAndDiscount.1 }

/-- The Python value that api/endpoints/payment.py `create_payment` passes as
the `promocode` argument of `PaymentService.create_payment`: by the service
signature it should be an `Optional[Promocode]`, but the endpoint actually
passes the `Price` it just computed. Dynamic typing defers the clash to the
first attribute access. -/
inductive PromoArg where
  | noneArg
  | promoArg (pc : Promocode)
  | priceArg (p : Price)
  deriving DecidableEq, Repr

/-- payment.py, `get_price_with_promocode` as invoked on a dynamically typed
argument: `promocode is None` is False for both a `Promocode` and a `Price`
object, after which `promocode.rest_usages` raises AttributeError on a
`Price` (the model has no such field). -/
def PaymentService.get_price_with_promocode_dyn (report : Report)
    (arg : PromoArg) (now : ℤ) : Except PyErr Price :=
  match arg with
  | PromoArg.priceArg _ => Except.error PyErr.attributeError
  | PromoArg.promoArg pc =>
    match PaymentService.get_price_with_promocode report (some pc) now with
    | some price => Except.ok price
    | none => Except.error PyErr.typeError
  | PromoArg.noneArg =>
    match PaymentService.get_price_with_promocode report none now with
    | some price => Except.ok price
    | none => Except.error PyErr.typeError

/-- The parts of the gateway payment body built by payment.py `_make_body`
that the endpoints later consult: `metadata["promocode"]` and the charged
amount. -/
structure PaymentBody where
  metadata_promocode : Option ℕ
  amount_value : ℚ
  deriving DecidableEq, Repr

/-- payment.py, `PaymentService._make_body(user, report, promocode)`
restricted to the consulted fields: raises ValueError when `report.price` is
null, prices via `get_price_with_promocode`, and records the used promo code
in the metadata only when one was supplied and classified `success`. -/
def PaymentService.make_body (report : Report) (arg : PromoArg) (now : ℤ) :
    Except PyErr PaymentBody :=
  match report.price with
  | none => Except.error PyErr.valueError
  | some _ =>
    match PaymentService.get_price_with_promocode_dyn report arg now with
    | Except.error e => Except.error e
    | Except.ok price =>
      let used_promocode : Option ℕ :=
        match arg with
        | PromoArg.promoArg pc =>
          if price.promocode_usage = PromocodeUsage.success
          then some pc.promocode else none
        | _ => none
      Except.ok { metadata_promocode := used_promocode
                  amount_value := price.final_price }

/-! ### db/service.py -/

/-- db/service.py, `DBService.get_report`: `SELECT ... WHERE report_id = $1
AND is_deleted is False` (first matching row, as `fetchrow`). -/
def DBService.get_report (db : DBState) (report_id : ℕ) : Option Report :=
  db.reports.find? (fun r => r.report_id == report_id && !r.is_deleted)

/-- db/service.py, `DBService.delete_report_rows`: `DELETE FROM report_rows
WHERE report_id = $1`. -/
def DBService.delete_report_rows (db : DBState) (report_id : ℕ) : DBState :=
  { db with rows := db.rows.filter (fun row => row.report_id ≠ report_id) }

/-- db/service.py, `DBService.add_report_rows`: bulk insert of the parsed
rows with `row_n` assigned 1..N by `enumerate(rows, 1)`. -/
def DBService.add_report_rows (db : DBState) (report_id : ℕ)
    (rows : List ParsedRow) : DBState :=
  { db with rows := (db.rows
      ++ List.zipWith
          (fun i row => DbRow.mk report_id (i + 1) row.income_year row.payload)
          (List.range rows.length) rows) }

/-- The SET clause of db/service.py `DBService.update_parsed_report` applied
to one reports row: parse_status and parsed_at always, the seven
info-derived columns from the record when present and NULL otherwise. -/
def applyParsedUpdate (parse_status : ParseStatus)
    (report_info : Option ExtendedParsedReportInfo) (now : ℤ) (r : Report) :
    Report :=
  { r with
    parse_status := parse_status
    parsed_at := some now
    broker := report_info.map (fun i => i.broker)
    period_start_year := report_info.map (fun i => i.period_start_year)
    period_end_year := report_info.map (fun i => i.period_end_year)
    year := report_info.bind (fun i => i.year)
    parse_note := report_info.bind (fun i => i.note)
    parser_version := report_info.map (fun i => i.version)
    price := report_info.map (fun i => i.price) }

/-- db/service.py, `DBService.update_parsed_report`: `UPDATE reports SET ...
WHERE report_id = $1 AND is_deleted is False`. -/
def DBService.update_parsed_report (db : DBState) (report_id : ℕ)
    (parse_status : ParseStatus)
    (report_info : Option ExtendedParsedReportInfo) (now : ℤ) : DBState :=
  { db with reports := db.reports.map (fun r =>
      if r.report_id = report_id ∧ r.is_deleted = false then
        applyParsedUpdate parse_status report_info now r
      else r) }

/-- db/service.py, `DBService.set_report_deleted`: `UPDATE reports SET
is_deleted = True, deleted_at = $2 WHERE report_id = $1 AND is_deleted is
False`. -/
def DBService.set_report_deleted (db : DBState) (report_id : ℕ) (now : ℤ) :
    DBState :=
  { db with reports := db.reports.map (fun r =>
      if r.report_id = report_id ∧ r.is_deleted = false then
        { r with is_deleted := true, deleted_at := some now }
      else r) }

/-- db/service.py, `DBService.update_payment_status`: `UPDATE reports SET
payment_status = $2, payment_status_updated_at = $3 WHERE report_id = $1 AND
is_deleted is False`. -/
def DBService.update_payment_status (db : DBState) (report_id : ℕ)
    (payment_status : PaymentStatus) (now : ℤ) : DBState :=
  { db with reports := db.reports.map (fun r =>
      if r.report_id = report_id ∧ r.is_deleted = false then
        { r with payment_status := payment_status,
                 payment_status_updated_at := some now }
      else r) }

/-- db/service.py, `DBService.get_promocode`: `SELECT * FROM promocodes WHERE
promocode = $1` (first matching row). -/
def DBService.get_promocode (db : DBState) (promo_code : ℕ) :
    Option Promocode :=
  db.promocodes.find? (fun pc => pc.promocode == promo_code)

/-- db/service.py, `DBService.update_promocode_rest_usages`: `UPDATE
promocodes SET rest_usages = rest_usages + $2 WHERE promocode = $1`. -/
def DBService.update_promocode_rest_usages (db : DBState) (promo_code : ℕ)
    (increment : ℤ) : DBState :=
  { db with promocodes := db.promocodes.map (fun pc =>
      if pc.promocode = promo_code then
        { pc with rest_usages := pc.rest_usages + increment }
      else pc) }

/-- db/service.py, `DBService.get_report_detailed_rows`: the report_rows of
the report, joined against a non-deleted reports row, optionally restricted
to one income year, in row_n order (rows are stored in insertion order). -/
def DBService.get_report_detailed_rows (db : DBState) (report_id : ℕ)
    (year : Option ℤ) : List DbRow :=
  match DBService.get_report db report_id with
  | none => []
  | some _ =>
    db.rows.filter (fun row => row.report_id == report_id
      && (year.isNone || year == some row.income_year))

/-! ### api/endpoints/parsed.py -/

/-- api/endpoints/parsed.py, `upload_parsing_result` (PUT
/reports/{report_id}/parsed, service role): 404 when the report is absent,
delete the old rows, then either persist the parsed result (year derived
from the period endpoints, price computed by the price service but lowered
to the stored price when that is smaller) together with the new rows, or
mark the report not_parsed with all derived columns nulled. `calc_price`
stands for `price_service.calc(parsed_report, report.created_at)` and `now`
for `utc_now()`. -/
def uploadParsingResult (db : DBState) (report_id : ℕ)
    (parsing_result : ParsingResult) (calc_price : ℚ) (now : ℤ) :
    Except PyErr DBState :=
  match DBService.get_report db report_id with
  | none => Except.error PyErr.notFound
  | some report =>
    let db1 := DBService.delete_report_rows db report_id
    match parsing_result.is_parsed, parsing_result.parsed_report with
    | true, some parsed_report =>
      let year : Option ℤ :=
        if parsed_report.period_start_year = parsed_report.period_end_year
        then some parsed_report.period_start_year else none
      let price : ℚ :=
        match report.price with
        | some stored => if stored < calc_price then stored else calc_price
        | none => calc_price
      let info : ExtendedParsedReportInfo :=
        { broker := parsed_report.broker
          version := parsed_report.version
          period_start_year := parsed_report.period_start_year
          period_end_year := parsed_report.period_end_year
          note := parsed_report.note
          year := year
          price := price }
      Except.ok (DBService.add_report_rows
        (DBService.update_parsed_report db1 report_id ParseStatus.parsed
          (some info) now)
        report_id parsed_report.rows)
    | _, _ =>
      Except.ok (DBService.update_parsed_report db1 report_id
        ParseStatus.not_parsed none now)

/-- api/endpoints/parsed.py, `get_report_detailed_rows` (GET
/reports/{report_id}/rows/detailed): 404 / 403 / 409 guards, then the 402
"not payed" gate `report.payment_status != payed and report.price > 0`
(short-circuit: with a payed report the null price is never compared; a
null price on an unpayed report raises TypeError). -/
def getReportDetailedRows (db : DBState) (report_id user_id : ℕ)
    (year : Option ℤ) : Except PyErr (List DbRow) :=
  match DBService.get_report db report_id with
  | none => Except.error PyErr.notFound
  | some report =>
    if report.user_id ≠ user_id then Except.error PyErr.forbidden
    else if report.parse_status ≠ ParseStatus.parsed then
      Except.error PyErr.notParsed
    else if report.payment_status ≠ PaymentStatus.payed then
      match report.price with
      | none => Except.error PyErr.typeError
      | some p =>
        if 0 < p then Except.error PyErr.notPayed
        else Except.ok (DBService.get_report_detailed_rows db report_id year)
    else Except.ok (DBService.get_report_detailed_rows db report_id year)

/-! ### api/endpoints/report.py -/

/-- api/endpoints/report.py, `delete_report` (DELETE /reports/{report_id}):
404 when absent or already soft-deleted, 403 when not the owner, otherwise
`delete_report_rows` followed by `set_report_deleted`. -/
def deleteReport (db : DBState) (report_id user_id : ℕ) (now : ℤ) :
    Except PyErr DBState :=
  match DBService.get_report db report_id with
  | none => Except.error PyErr.notFound
  | some report =>
    if report.user_id ≠ user_id then Except.error PyErr.forbidden
    else Except.ok (DBService.set_report_deleted
      (DBService.delete_report_rows db report_id) report_id now)

/-! ### api/endpoints/payment.py -/

/-- api/endpoints/payment.py, `_get_report_price`: resolve the optional
promo query parameter (uppercasing is the identity on our opaque code
identifiers), flag a supplied-but-unknown code, and price via
`PriceService.get_price`. -/
def getReportPriceHelper (db : DBState) (report : Report) (promo : Option ℕ)
    (now : ℤ) : Option Price :=
  match promo with
  | none => PriceService.get_price report none false now
  | some code =>
    match DBService.get_promocode db code with
    | none => PriceService.get_price report none true now
    | some pc => PriceService.get_price report (some pc) false now

/-- api/endpoints/payment.py, `create_payment` (POST
/reports/{report_id}/payment): the 404/403/409 guards, pricing via
`_get_report_price`, the gateway call built by
`payment_service.create_payment(user, report, price)` — which passes the
computed `Price` where the service expects an `Optional[Promocode]` — then
persisting payment_status=in_progress and decrementing the used promo
code's rest_usages when the body metadata names one. -/
def createPayment (db : DBState) (report_id user_id : ℕ) (promo : Option ℕ)
    (now : ℤ) : Except PyErr DBState :=
  match DBService.get_report db report_id with
  | none => Except.error PyErr.notFound
  | some report =>
    if report.user_id ≠ user_id then Except.error PyErr.forbidden
    else if report.parse_status ≠ ParseStatus.parsed then
      Except.error PyErr.notParsed
    else if report.price.isNone then Except.error PyErr.noPrice
    else if report.payment_status = PaymentStatus.payed then
      Except.error PyErr.alreadyPayed
    else if report.payment_status = PaymentStatus.in_progress then
      Except.error PyErr.paymentInProgress
    else
      match getReportPriceHelper db report promo now with
      | none => Except.error PyErr.typeError
      | some price =>
        match PaymentService.make_body report (PromoArg.priceArg price) now with
        | Except.error e => Except.error e
        | Except.ok body =>
          let db1 := DBService.update_payment_status db report_id
            PaymentStatus.in_progress now
          match body.metadata_promocode with
          | some code =>
            Except.ok (DBService.update_promocode_rest_usages db1 code (-1))
          | none => Except.ok db1

/-- The one cancellation reason of
`USER_PAYMENT_CANCELLATION_REASONS = ("expired_on_confirmation",)`, as an
opaque identifier. -/
def expired_on_confirmation : ℕ := 0

/-- api/endpoints/payment.py, `USER_PAYMENT_CANCELLATION_REASONS`. -/
def USER_PAYMENT_CANCELLATION_REASONS : List ℕ := [expired_on_confirmation]

/-- The parts of a models/payment.py `YookassaEventBody` that the webhook
handler consults: the event, the cancellation reason (read only for
cancelled events), the metadata report_id and promocode, and whether the
embedded JWT verifies (`token_ok` standing for the outcome of
`verify_authenticity_of_webhook`). -/
structure EventBody where
  event : YookassaEvent
  cancellation_reason : ℕ
  meta_report_id : ℕ
  meta_promocode : Option ℕ
  token_ok : Bool
  deriving DecidableEq, Repr

/-- api/endpoints/payment.py, `accept_yookassa_webhook`, the event → status
if/elif/else chain: succeeded → payed, cancelled → not_payed for a
user-cancellation reason and error otherwise, anything else raises
ValueError. -/
def webhookPaymentStatus (event : YookassaEvent) (cancellation_reason : ℕ) :
    Except PyErr PaymentStatus :=
  match event with
  | YookassaEvent.succeeded => Except.ok PaymentStatus.payed
  | YookassaEvent.cancelled =>
    if cancellation_reason ∈ USER_PAYMENT_CANCELLATION_REASONS
    then Except.ok PaymentStatus.not_payed
    else Except.ok PaymentStatus.error
  | _ => Except.error PyErr.valueError

/-- api/endpoints/payment.py, `accept_yookassa_webhook` (POST
/yookassa/webhook): token verification failure and unexpected events raise
(5xx) before anything is written; otherwise the mapped payment status is
persisted for the metadata's report (ValueError when it does not exist) and
a recorded promo code is incremented when the status is error. -/
def acceptYookassaWebhook (db : DBState) (body : EventBody) (now : ℤ) :
    Except PyErr DBState :=
  if !body.token_ok then Except.error PyErr.jwtError
  else
    match webhookPaymentStatus body.event body.cancellation_reason with
    | Except.error e => Except.error e
    | Except.ok payment_status =>
      match DBService.get_report db body.meta_report_id with
      | none => Except.error PyErr.valueError
      | some _ =>
        let db1 := DBService.update_payment_status db body.meta_report_id
          payment_status now
        match body.meta_promocode, payment_status with
        | some code, PaymentStatus.error =>
          Except.ok (DBService.update_promocode_rest_usages db1 code 1)
        | _, _ => Except.ok db1

instance {ε α : Type} [DecidableEq ε] [DecidableEq α] :
    DecidableEq (Except ε α) := fun a b =>
  match a, b with
  | Except.error x, Except.error y =>
    if h : x = y then isTrue (h ▸ rfl)
    else isFalse (fun hh => h (by cases hh; rfl))
  | Except.error _, Except.ok _ => isFalse (fun hh => nomatch hh)
  | Except.ok _, Except.error _ => isFalse (fun hh => nomatch hh)
  | Except.ok x, Except.ok y =>
    if h : x = y then isTrue (h ▸ rfl)
    else isFalse (fun hh => h (by cases hh; rfl))

/-! ### Definitions transcribed from the specification's words

These transcribe claim statements, never the source; each is compared with
the corresponding source embedding by a theorem below. -/

/-- Spec: "the index of the first threshold ≥ n" (none when every threshold
is below `n`). -/
def specFirstIdx (n : ℤ) : List ℤ → Option ℕ
  | [] => none
  | t :: ts => if n ≤ t then some 0 else (specFirstIdx n ts).map (· + 1)

/-- Spec (C4): "prices[i] where i is the index of the first threshold ≥ n,
or the last price when n exceeds every threshold". -/
def specThresholdPrice (n : ℤ) (thr : List ℤ) (prices : List ℚ) : ℚ :=
  match specFirstIdx n thr with
  | some i => prices.getD i 0
  | none => prices.getLastD 0

/-- Spec (C5): the promo-usage classification and discount by the claim's
precedence, first matching rule winning: no code supplied → not_set; no
matching record → not_exist; personal code of another user → not_exist;
rest_usages ≤ 0 → not_exist; outside the inclusive [valid_from, valid_to]
window → expired; otherwise success with the record's discount. -/
def specPromoOutcome (requesting_user : ℕ) (code_supplied : Bool)
    (lookup : Option Promocode) (now : ℤ) : PromocodeUsage × ℤ :=
  if code_supplied = false then (PromocodeUsage.not_set, 0)
  else
    match lookup with
    | none => (PromocodeUsage.not_exist, 0)
    | some pc =>
      if pc.user_id.isSome ∧ pc.user_id ≠ some requesting_user then
        (PromocodeUsage.not_exist, 0)
      else if pc.rest_usages ≤ 0 then (PromocodeUsage.not_exist, 0)
      else if now < pc.valid_from ∨ pc.valid_to < now then
        (PromocodeUsage.expired, 0)
      else (PromocodeUsage.success, pc.discount)

/-- Spec (C7): "final_price = round(start_price × (1 − discount/100), 2),
computed via exact-decimal arithmetic" — the exact rational product rounded
to the nearest hundredth, ties to even as Python's `round` does on
`Decimal`. -/
def specExactFinalPrice (start_price : ℚ) (discount : ℤ) : ℚ :=
  roundHalfEvenMul (1/100) (start_price * (1 - (discount : ℚ) / 100))

/-! ### Concrete fixtures for witnesses and counterexamples -/

/-- A parsed, unpaid report priced 156.32 owned by user 5. -/
def baseReport : Report :=
  { report_id := 1
    user_id := 5
    created_at := 0
    parse_status := ParseStatus.parsed
    payment_status := PaymentStatus.not_payed
    price := some (3908/25)
    parsed_at := none
    broker := none
    period_start_year := none
    period_end_year := none
    year := none
    parse_note := none
    parser_version := none
    is_deleted := false
    deleted_at := none
    payment_status_updated_at := none }

/-- A shared promo code (code 7): 1000 usages left, 15 percent, valid on the
window [-10, 10]. -/
def basePromo : Promocode :=
  { promocode := 7
    user_id := none
    valid_from := -10
    valid_to := 10
    rest_usages := 1000
    discount := 15 }

/-- Fixture for C2: the store right before a payment attempt. -/
def c2db : DBState :=
  { reports := [baseReport], rows := [], promocodes := [basePromo] }

/-- Fixture for C2: an `error`-mapping cancellation webhook (reason 1 is not
expired_on_confirmation) for report 1 that recorded promo code 7. -/
def c2errorEvent : EventBody :=
  { event := YookassaEvent.cancelled
    cancellation_reason := 1
    meta_report_id := 1
    meta_promocode := some 7
    token_ok := true }

/-- Fixture for C7: a report priced 0.15 (the Decimal 3/20). -/
def c7report : Report := { baseReport with price := some (3/20) }

/-- Fixture for C7: a valid 50 percent promo code. -/
def c7promo : Promocode := { basePromo with discount := 50 }

/-- Fixture for C8: report 1 (user 5) with two stored rows, and report 2
(user 5) with one row that must survive deleting report 1. -/
def c8db : DBState :=
  { reports := [baseReport, { baseReport with report_id := 2 }]
    rows := [DbRow.mk 1 1 2021 11, DbRow.mk 1 2 2022 12, DbRow.mk 2 1 2021 21]
    promocodes := [] }

/-- Fixture for C1: a store holding the single report 1 priced 100. -/
def c1db : DBState :=
  { reports := [{ baseReport with price := some 100 }]
    rows := []
    promocodes := [] }

/-- Fixture for C1: a successful two-row parse result spanning 2021 only. -/
def c1parsed : ParsedReport :=
  { broker := 3
    version := 4
    period_start_year := 2021
    period_end_year := 2021
    note := none
    rows := [ParsedRow.mk 2021 11, ParsedRow.mk 2021 12] }

/-- Fixture for C3: a store holding report 1 with payment not_payed. -/
def c3db : DBState :=
  { reports := [baseReport], rows := [], promocodes := [] }

/-- Fixture for C3: a verified succeeded event for report 1. -/
def c3succeededEvent : EventBody :=
  { event := YookassaEvent.succeeded
    cancellation_reason := 0
    meta_report_id := 1
    meta_promocode := none
    token_ok := true }

/-- Fixture for C6: an unpaid parsed report priced 100 with one row. -/
def c6db : DBState :=
  { reports := [{ baseReport with price := some 100 }]
    rows := [DbRow.mk 1 1 2021 11]
    promocodes := [] }

/-- Fixture for C10: a store whose only report is soft-deleted. -/
def c10db : DBState :=
  { reports := [{ baseReport with is_deleted := true, deleted_at := some 2 }]
    rows := []
    promocodes := [] }

/-! ### Helper lemmas -/

theorem list_map_fix {α : Type} (f : α → α) :
    ∀ l : List α, (∀ a ∈ l, f a = a) → l.map f = l := by
  intro l h
  induction l with
  | nil => rfl
  | cons a t ih =>
    simp only [List.map_cons, List.cons.injEq]
    exact ⟨h a (List.mem_cons_self a t), ih fun x hx => h x (List.mem_cons_of_mem a hx)⟩

theorem mem_update_payment_status (db : DBState) (rid : ℕ)
    (ps : PaymentStatus) (now : ℤ) :
    ∀ r' ∈ (DBService.update_payment_status db rid ps now).reports,
      r'.report_id = rid → r'.is_deleted = false → r'.payment_status = ps := by
  intro r' hr' hid hdel
  simp only [DBService.update_payment_status, List.mem_map] at hr'
  obtain ⟨r, hmem, hrr⟩ := hr'
  by_cases hc : r.report_id = rid ∧ r.is_deleted = false
  · rw [if_pos hc] at hrr
    subst hrr
    rfl
  · rw [if_neg hc] at hrr
    subst hrr
    exact absurd ⟨hid, hdel⟩ hc

theorem mem_update_parsed_report (db : DBState) (rid : ℕ) (st : ParseStatus)
    (info : Option ExtendedParsedReportInfo) (now : ℤ) :
    ∀ r' ∈ (DBService.update_parsed_report db rid st info now).reports,
      r'.report_id = rid → r'.is_deleted = false →
      r'.parse_status = st ∧ r'.price = info.map (fun i => i.price) := by
  intro r' hr' hid hdel
  simp only [DBService.update_parsed_report, List.mem_map] at hr'
  obtain ⟨r, hmem, hrr⟩ := hr'
  by_cases hc : r.report_id = rid ∧ r.is_deleted = false
  · rw [if_pos hc] at hrr
    subst hrr
    exact ⟨rfl, rfl⟩
  · rw [if_neg hc] at hrr
    subst hrr
    exact absurd ⟨hid, hdel⟩ hc

theorem get_report_after_set_deleted (db : DBState) (rid : ℕ) (now : ℤ) :
    DBService.get_report (DBService.set_report_deleted db rid now) rid = none := by
  apply List.find?_eq_none.mpr
  intro x hx
  simp only [DBService.set_report_deleted, List.mem_map] at hx
  obtain ⟨r, hmem, hrr⟩ := hx
  by_cases hc : r.report_id = rid ∧ r.is_deleted = false
  · rw [if_pos hc] at hrr
    subst hrr
    simp
  · rw [if_neg hc] at hrr
    subst hrr
    simp only [Bool.and_eq_true, beq_iff_eq, Bool.not_eq_eq_eq_not, Bool.not_true, not_and]
    intro h1 h2
    exact hc ⟨h1, by simpa using h2⟩

/-! ### Claim theorems -/

/-- C10: a store operation never observes or mutates a soft-deleted reports
row: when every row carrying `rid` is soft-deleted, `get_report` returns
none and `update_parsed_report`, `update_payment_status` and
`set_report_deleted` leave the store unchanged (each statement filters on
`is_deleted is False`). -/
theorem C10_soft_deleted_rows_untouchable (db : DBState) (rid : ℕ)
    (hall : ∀ r ∈ db.reports, r.report_id = rid → r.is_deleted = true) :
    DBService.get_report db rid = none
    ∧ (∀ st info now,
        DBService.update_parsed_report db rid st info now = db)
    ∧ (∀ ps now, DBService.update_payment_status db rid ps now = db)
    ∧ (∀ now, DBService.set_report_deleted db rid now = db) := by
  have hfix : ∀ r ∈ db.reports, ¬ (r.report_id = rid ∧ r.is_deleted = false) := by
    intro r hr hc
    rw [hall r hr hc.1] at hc
    exact absurd hc.2 (by simp)
  refine ⟨?_, ?_, ?_, ?_⟩
  · apply List.find?_eq_none.mpr
    intro x hx
    simp only [Bool.and_eq_true, beq_iff_eq, Bool.not_eq_eq_eq_not, Bool.not_true, not_and]
    intro h1
    rw [hall x hx h1]
    simp
  · intro st info now
    simp only [DBService.update_parsed_report]
    have : db.reports.map (fun r =>
        if r.report_id = rid ∧ r.is_deleted = false then
          applyParsedUpdate st info now r
        else r) = db.reports :=
      list_map_fix _ _ (fun r hr => if_neg (hfix r hr))
    rw [this]
  · intro ps now
    simp only [DBService.update_payment_status]
    have : db.reports.map (fun r =>
        if r.report_id = rid ∧ r.is_deleted = false then
          { r with payment_status := ps, payment_status_updated_at := some now }
        else r) = db.reports :=
      list_map_fix _ _ (fun r hr => if_neg (hfix r hr))
    rw [this]
  · intro now
    simp only [DBService.set_report_deleted]
    have : db.reports.map (fun r =>
        if r.report_id = rid ∧ r.is_deleted = false then
          { r with is_deleted := true, deleted_at := some now }
        else r) = db.reports :=
      list_map_fix _ _ (fun r hr => if_neg (hfix r hr))
    rw [this]

/-- C10 witness: the operations evaluated on a store whose only report is
soft-deleted. -/
theorem C10_witness :
    DBService.get_report c10db 1 = none
    ∧ DBService.update_payment_status c10db 1 PaymentStatus.payed 3 = c10db := by
  have h := C10_soft_deleted_rows_untouchable c10db 1 (by decide)
  exact ⟨h.1, h.2.2.1 PaymentStatus.payed 3⟩

/-- C8 counterexample: soft deletion does physically remove the report's
report_rows records. Deleting report 1 (which owns two stored rows) removes
both rows from the store, keeping only the other report's row — the claim
that "the report's row data remains stored after the soft delete" is false
on this input. -/
theorem C8_counterexample :
    c8db.rows
      = [DbRow.mk 1 1 2021 11, DbRow.mk 1 2 2022 12, DbRow.mk 2 1 2021 21]
    ∧ Except.map DBState.rows (deleteReport c8db 1 5 0)
      = Except.ok [DbRow.mk 2 1 2021 21] :=
  ⟨rfl, rfl⟩

/-- C8 (amended): soft deletion by the owner of an existing non-deleted
report marks it deleted, so a subsequent fetch returns none (404 for every
get/list/rows/payment request, which all go through the is_deleted filter),
and it also physically deletes the report's report_rows records, leaving
exactly the other reports' rows. -/
theorem C8_soft_delete_marks_and_removes_rows (db : DBState)
    (rid uid : ℕ) (now : ℤ) (report : Report)
    (hget : DBService.get_report db rid = some report)
    (howner : report.user_id = uid) :
    ∃ db', deleteReport db rid uid now = Except.ok db'
      ∧ DBService.get_report db' rid = none
      ∧ db'.rows = db.rows.filter (fun row => row.report_id ≠ rid) := by
  have hok : deleteReport db rid uid now
      = Except.ok (DBService.set_report_deleted
          (DBService.delete_report_rows db rid) rid now) := by
    unfold deleteReport
    rw [hget]
    simp [howner]
  rw [hok]
  exact ⟨_, rfl, get_report_after_set_deleted _ rid now, rfl⟩

/-- C8 witness: the amended soft-delete behaviour evaluated on a concrete
store with two reports and three rows. -/
theorem C8_witness :
    DBService.get_report c8db 1 = some baseReport
    ∧ baseReport.user_id = 5
    ∧ ∃ db', deleteReport c8db 1 5 0 = Except.ok db'
        ∧ DBService.get_report db' 1 = none
        ∧ db'.rows = c8db.rows.filter (fun row => row.report_id ≠ 1) :=
  ⟨rfl, rfl, C8_soft_delete_marks_and_removes_rows c8db 1 5 0 baseReport rfl rfl⟩

theorem thresholdsScan_eq_spec (n : ℤ) :
    ∀ (thr : List ℤ) (prices : List ℚ), thr.length + 1 = prices.length →
      thresholdsScan n (thr.zip prices)
        = (specFirstIdx n thr).map (fun i => prices.getD i 0) := by
  intro thr
  induction thr with
  | nil => intro prices h; simp [thresholdsScan, specFirstIdx]
  | cons t ts ih =>
    intro prices h
    cases prices with
    | nil => simp at h
    | cons p ps =>
      have h' : ts.length + 1 = ps.length := by simpa using h
      have hz : (t :: ts).zip (p :: ps) = (t, p) :: ts.zip ps := rfl
      rw [hz]
      simp only [thresholdsScan, specFirstIdx]
      by_cases hc : n ≤ t
      · rw [if_pos hc, if_pos hc]
        simp
      · rw [if_neg hc, if_neg hc]
        rw [ih ps h', Option.map_map]
        cases specFirstIdx n ts <;> simp

/-- C4: for a thresholds configuration with ascending thresholds and one
price more than thresholds, `thresholds_calculator` returns the price of
the first threshold at or above the row count — `prices[i]` for the first
index with `n ≤ thresholds[i]`, or the last price when `n` exceeds every
threshold — and on the concrete configuration [10, 30, 100] /
[49, 149, 249, 349] it yields 49, 49, 149, 249, 349 for row counts 0, 10,
11, 100, 101. -/
theorem C4_thresholds_calculator_spec :
    (∀ (n_rows : ℕ) (thr : List ℤ) (prices : List ℚ),
        isSortedAsc thr = true → thr.length + 1 = prices.length →
        thresholds_calculator n_rows thr prices
          = Except.ok (specThresholdPrice (n_rows : ℤ) thr prices))
    ∧ thresholds_calculator 0 [10, 30, 100] [49, 149, 249, 349] = Except.ok 49
    ∧ thresholds_calculator 10 [10, 30, 100] [49, 149, 249, 349] = Except.ok 49
    ∧ thresholds_calculator 11 [10, 30, 100] [49, 149, 249, 349] = Except.ok 149
    ∧ thresholds_calculator 100 [10, 30, 100] [49, 149, 249, 349] = Except.ok 249
    ∧ thresholds_calculator 101 [10, 30, 100] [49, 149, 249, 349]
        = Except.ok 349 := by
  refine ⟨?_, by decide, by decide, by decide, by decide, by decide⟩
  intro n thr prices hs hl
  unfold thresholds_calculator
  rw [if_neg (by omega)]
  rw [if_neg (by simp [hs])]
  rw [thresholdsScan_eq_spec (n : ℤ) thr prices hl]
  unfold specThresholdPrice
  cases specFirstIdx (n : ℤ) thr <;> simp

/-- C4 witness: the general statement applied to the spec's concrete
configuration at row count 11. -/
theorem C4_witness :
    isSortedAsc [10, 30, 100] = true
    ∧ ([10, 30, 100] : List ℤ).length + 1 = ([49, 149, 249, 349] : List ℚ).length
    ∧ thresholds_calculator 11 [10, 30, 100] [49, 149, 249, 349]
        = Except.ok (specThresholdPrice 11 [10, 30, 100] [49, 149, 249, 349]) :=
  ⟨by decide, by decide,
    C4_thresholds_calculator_spec.1 11 [10, 30, 100] [49, 149, 249, 349]
      (by decide) (by decide)⟩

/-- C9: the two promo evaluators agree — on a report with a non-null price
and an actual promo-code record, `PriceService.get_price(report, promocode,
False)` and `PaymentService.get_price_with_promocode(report, promocode)`
return the very same price breakdown (start price, final price, discount
and usage classification). -/
theorem C9_price_evaluators_agree (report : Report) (pc : Promocode)
    (p : ℚ) (now : ℤ) (hp : report.price = some p) :
    ∃ pr : Price,
      PriceService.get_price report (some pc) false now = some pr
      ∧ PaymentService.get_price_with_promocode report (some pc) now
          = some pr := by
  simp only [PriceService.get_price, PaymentService.get_price_with_promocode,
    hp]
  exact ⟨_, rfl, rfl⟩

/-- C9 witness: both evaluators on the 156.32 report with the 15 percent
code. -/
theorem C9_witness :
    baseReport.price = some (3908/25)
    ∧ ∃ pr : Price,
        PriceService.get_price baseReport (some basePromo) false 0 = some pr
        ∧ PaymentService.get_price_with_promocode baseReport (some basePromo) 0
            = some pr :=
  ⟨rfl, C9_price_evaluators_agree baseReport basePromo (3908/25) 0 rfl⟩

/-- C5: on a report with a stored price, the promo evaluation of
`PriceService.get_price` — invoked as the endpoints do, with
`promocode_not_exist` set exactly when a code was supplied but not found —
classifies usage and picks the discount exactly as the claim's precedence
list (`specPromoOutcome`): not_set / not_exist (unknown, foreign-personal
or used-up code) / expired / success with the record's discount. -/
theorem C5_promo_precedence (report : Report) (p : ℚ) (supplied : Bool)
    (lookup : Option Promocode) (now : ℤ)
    (hp : report.price = some p)
    (hsup : lookup.isSome = true → supplied = true) :
    Option.map (fun pr => (pr.promocode_usage, pr.discount))
        (PriceService.get_price report lookup (supplied && lookup.isNone) now)
      = some (specPromoOutcome report.user_id supplied lookup now) := by
  cases lookup with
  | none =>
    cases supplied with
    | false => simp [PriceService.get_price, specPromoOutcome, hp]
    | true => simp [PriceService.get_price, specPromoOutcome, hp]
  | some pc =>
    have hs : supplied = true := hsup (by simp)
    subst hs
    simp only [PriceService.get_price, specPromoOutcome, hp, Bool.and_self,
      Option.isNone_some, Bool.and_false, Option.map_some]
    cases huid : pc.user_id with
    | none =>
      by_cases h1 : pc.rest_usages ≤ 0
        <;> by_cases h3 : now < pc.valid_from ∨ pc.valid_to < now
        <;> simp [h1, h3, gt_iff_lt]
    | some u =>
      by_cases hu : u = report.user_id
        <;> by_cases h1 : pc.rest_usages ≤ 0
        <;> by_cases h3 : now < pc.valid_from ∨ pc.valid_to < now
        <;> simp [h1, h3, hu, gt_iff_lt]

/-- C5 witness: the precedence evaluated at a usable shared 15 percent code
on the 156.32 report. -/
theorem C5_witness :
    baseReport.price = some (3908/25)
    ∧ Option.map (fun pr => (pr.promocode_usage, pr.discount))
        (PriceService.get_price baseReport (some basePromo)
          (true && (some basePromo).isNone) 0)
      = some (specPromoOutcome baseReport.user_id true (some basePromo) 0) :=
  ⟨rfl, C5_promo_precedence baseReport (3908/25) true (some basePromo) 0 rfl
    (fun _ => rfl)⟩

/-- C6: for the owner of a non-deleted parsed report with a stored price,
the detailed-rows endpoint answers 402 ("not payed") exactly when the
report is not payed and its price is positive; a free report's detailed
rows are served without payment. -/
theorem C6_detailed_rows_payment_gate (db : DBState) (rid uid : ℕ)
    (year : Option ℤ) (report : Report) (p : ℚ)
    (hget : DBService.get_report db rid = some report)
    (howner : report.user_id = uid)
    (hparsed : report.parse_status = ParseStatus.parsed)
    (hp : report.price = some p) :
    getReportDetailedRows db rid uid year = Except.error PyErr.notPayed
    ↔ (report.payment_status ≠ PaymentStatus.payed ∧ 0 < p) := by
  unfold getReportDetailedRows
  rw [hget]
  simp only [howner, hparsed, hp, ne_eq, not_true_eq_false, if_false]
  by_cases hpay : report.payment_status = PaymentStatus.payed
  · simp [hpay]
  · by_cases h0 : 0 < p
    · simp [hpay, h0]
    · simp [hpay, h0]

/-- C6 witness: the gate evaluated on a 100-priced unpaid report: the 402
outcome holds together with both sides of the equivalence. -/
theorem C6_witness :
    DBService.get_report c6db 1 = some { baseReport with price := some 100 }
    ∧ (getReportDetailedRows c6db 1 5 none = Except.error PyErr.notPayed
        ↔ ({ baseReport with price := some 100 } : Report).payment_status
            ≠ PaymentStatus.payed ∧ (0 : ℚ) < 100) :=
  ⟨rfl, C6_detailed_rows_payment_gate c6db 1 5 none
    { baseReport with price := some 100 } 100 rfl rfl rfl rfl⟩

/-- C1: re-parsing never raises a stored price. When a report with stored
price `p` receives a successful parse result whose computed price is `q`,
the persisted price is `q` when `q < p` and `p` otherwise, on every
surviving row of that report. -/
theorem C1_reparse_never_raises_price (db : DBState) (rid : ℕ)
    (pres : ParsedReport) (msg : Option ℕ) (q p : ℚ) (now : ℤ)
    (report : Report)
    (hget : DBService.get_report db rid = some report)
    (hp : report.price = some p) :
    ∃ db', uploadParsingResult db rid ⟨some pres, msg, true⟩ q now
        = Except.ok db'
      ∧ ∀ r' ∈ db'.reports, r'.report_id = rid → r'.is_deleted = false →
          r'.price = some (if q < p then q else p) := by
  unfold uploadParsingResult
  rw [hget]
  refine ⟨_, rfl, ?_⟩
  intro r' hr' hid hdel
  have hmem :
      r' ∈ (DBService.update_parsed_report
        (DBService.delete_report_rows db rid) rid ParseStatus.parsed
        (some { broker := pres.broker
                version := pres.version
                period_start_year := pres.period_start_year
                period_end_year := pres.period_end_year
                note := pres.note
                year := if pres.period_start_year = pres.period_end_year
                        then some pres.period_start_year else none
                price := match report.price with
                         | some stored =>
                           if stored < q then stored else q
                         | none => q }) now).reports := hr'
  have h := (mem_update_parsed_report _ rid ParseStatus.parsed _ now r'
    hmem hid hdel).2
  rw [hp] at h
  simp at h
  rw [h]
  by_cases hlt : p < q
  · rw [if_pos hlt, if_neg (lt_asymm hlt)]
  · rw [if_neg hlt]
    by_cases hqp : q < p
    · rw [if_pos hqp]
    · rw [if_neg hqp, le_antisymm (le_of_not_lt hqp) (le_of_not_lt hlt)]

/-- C1 witness: stored price 100, new parse computing 150, persists 100 (and
the claim's `if` selects 100). -/
theorem C1_witness :
    DBService.get_report c1db 1 = some { baseReport with price := some 100 }
    ∧ ∃ db', uploadParsingResult c1db 1 ⟨some c1parsed, none, true⟩ 150 5
          = Except.ok db'
        ∧ ∀ r' ∈ db'.reports, r'.report_id = 1 → r'.is_deleted = false →
            r'.price = some (if (150 : ℚ) < 100 then 150 else 100) :=
  ⟨rfl, C1_reparse_never_raises_price c1db 1 c1parsed none 150 100 5
    { baseReport with price := some 100 } rfl rfl⟩

/-- C3: for a webhook whose token verifies and whose report exists, the
persisted payment status is payed for a succeeded event, not_payed for a
cancellation with reason expired_on_confirmation, error for a cancellation
with any other reason; any other event raises (5xx) and writes no payment
status. -/
theorem C3_webhook_event_mapping (db : DBState) (body : EventBody)
    (r : Report) (now : ℤ)
    (htok : body.token_ok = true)
    (hrep : DBService.get_report db body.meta_report_id = some r) :
    (body.event = YookassaEvent.succeeded →
      ∃ db', acceptYookassaWebhook db body now = Except.ok db'
        ∧ ∀ r' ∈ db'.reports, r'.report_id = body.meta_report_id →
            r'.is_deleted = false →
            r'.payment_status = PaymentStatus.payed)
    ∧ (body.event = YookassaEvent.cancelled →
        body.cancellation_reason ∈ USER_PAYMENT_CANCELLATION_REASONS →
      ∃ db', acceptYookassaWebhook db body now = Except.ok db'
        ∧ ∀ r' ∈ db'.reports, r'.report_id = body.meta_report_id →
            r'.is_deleted = false →
            r'.payment_status = PaymentStatus.not_payed)
    ∧ (body.event = YookassaEvent.cancelled →
        body.cancellation_reason ∉ USER_PAYMENT_CANCELLATION_REASONS →
      ∃ db', acceptYookassaWebhook db body now = Except.ok db'
        ∧ ∀ r' ∈ db'.reports, r'.report_id = body.meta_report_id →
            r'.is_deleted = false →
            r'.payment_status = PaymentStatus.error)
    ∧ ((body.event = YookassaEvent.waiting_for_capture
        ∨ body.event = YookassaEvent.refund_succeeded) →
        acceptYookassaWebhook db body now = Except.error PyErr.valueError) := by
  refine ⟨?_, ?_, ?_, ?_⟩
  · intro hev
    have hst : webhookPaymentStatus body.event body.cancellation_reason
        = Except.ok PaymentStatus.payed := by rw [hev]; rfl
    simp only [acceptYookassaWebhook, htok, Bool.not_true, Bool.false_eq_true,
      if_false, hst, hrep]
    cases body.meta_promocode with
    | none =>
      exact ⟨_, rfl, mem_update_payment_status db body.meta_report_id
        PaymentStatus.payed now⟩
    | some code =>
      exact ⟨_, rfl, mem_update_payment_status db body.meta_report_id
        PaymentStatus.payed now⟩
  · intro hev hreason
    have hst : webhookPaymentStatus body.event body.cancellation_reason
        = Except.ok PaymentStatus.not_payed := by
      rw [hev]
      simp only [webhookPaymentStatus, if_pos hreason]
    simp only [acceptYookassaWebhook, htok, Bool.not_true, Bool.false_eq_true,
      if_false, hst, hrep]
    cases body.meta_promocode with
    | none =>
      exact ⟨_, rfl, mem_update_payment_status db body.meta_report_id
        PaymentStatus.not_payed now⟩
    | some code =>
      exact ⟨_, rfl, mem_update_payment_status db body.meta_report_id
        PaymentStatus.not_payed now⟩
  · intro hev hreason
    have hst : webhookPaymentStatus body.event body.cancellation_reason
        = Except.ok PaymentStatus.error := by
      rw [hev]
      simp only [webhookPaymentStatus, if_neg hreason]
    simp only [acceptYookassaWebhook, htok, Bool.not_true, Bool.false_eq_true,
      if_false, hst, hrep]
    cases body.meta_promocode with
    | none =>
      exact ⟨_, rfl, mem_update_payment_status db body.meta_report_id
        PaymentStatus.error now⟩
    | some code =>
      exact ⟨_, rfl, mem_update_payment_status db body.meta_report_id
        PaymentStatus.error now⟩
  · intro hev
    have hst : webhookPaymentStatus body.event body.cancellation_reason
        = Except.error PyErr.valueError := by
      rcases hev with hev | hev <;> rw [hev] <;> rfl
    simp only [acceptYookassaWebhook, htok, Bool.not_true, Bool.false_eq_true,
      if_false, hst]

/-- C3 witness: a verified succeeded event for existing report 1 persists
payment_status payed. -/
theorem C3_witness :
    c3succeededEvent.token_ok = true
    ∧ DBService.get_report c3db c3succeededEvent.meta_report_id
        = some baseReport
    ∧ (c3succeededEvent.event = YookassaEvent.succeeded →
        ∃ db', acceptYookassaWebhook c3db c3succeededEvent 9 = Except.ok db'
          ∧ ∀ r' ∈ db'.reports,
              r'.report_id = c3succeededEvent.meta_report_id →
              r'.is_deleted = false →
              r'.payment_status = PaymentStatus.payed) :=
  ⟨rfl, rfl,
    (C3_webhook_event_mapping c3db c3succeededEvent baseReport 9 rfl rfl).1⟩

section

attribute [local semireducible] Rat.mul Rat.add Rat.sub Rat.inv

/-- C2: the code contradicts the claimed promo accounting round-trip. On a
parsed, unpaid report priced 156.32 and a usable promo code with 1000
remaining usages, the payment-creation endpoint raises AttributeError (it
hands its computed `Price` to `PaymentService.create_payment` in place of
the `Promocode` the service dereferences), so no payment is created and
rest_usages is never decremented — while the webhook side, fed an
error-status event that names the code, does increment rest_usages from
1000 to 1001. -/
theorem C2_create_payment_attribute_error :
    createPayment c2db 1 5 (some 7) 0 = Except.error PyErr.attributeError
    ∧ Except.map (fun db' => db'.promocodes.map Promocode.rest_usages)
        (acceptYookassaWebhook c2db c2errorEvent 0) = Except.ok [1001] :=
  ⟨by decide, by decide⟩

/-- C7 counterexample: the final price is not the exact-decimal rounding.
For a stored price of 0.15 and a successfully applied 50 percent code, the
code computes final_price 0.07 (via binary floats, 0.15 × 0.5 evaluating
just below 0.075), while round(0.15 × (1 − 50/100), 2) in exact-decimal
arithmetic is 0.08 — whichever way the 0.075 tie is broken, since
half-even and half-up both give 0.08 here. -/
theorem C7_counterexample :
    Option.map Price.final_price
        (PriceService.get_price c7report (some c7promo) false 0)
      = some (7/100)
    ∧ specExactFinalPrice (3/20) 50 = 8/100
    ∧ (7/100 : ℚ) ≠ 8/100 :=
  ⟨by decide, by decide, by decide⟩

/-- C7 (amended): final_price equals round(start_price × (1 − d/100), 2)
computed in Python binary double-precision floating point
(`finalPriceFloat`), not in exact-decimal arithmetic; on the spec's example
(start 156.32, discount 15) the two agree on 132.87. -/
theorem C7_final_price_is_binary_float :
    (∀ (report : Report) (pc : Option Promocode) (pne : Bool) (p : ℚ)
        (now : ℤ) (pr : Price), report.price = some p →
        PriceService.get_price report pc pne now = some pr →
        pr.final_price = finalPriceFloat p pr.discount)
    ∧ finalPriceFloat (3908/25) 15 = 13287/100
    ∧ specExactFinalPrice (3908/25) 15 = 13287/100 := by
  refine ⟨?_, by decide, by decide⟩
  intro report pc pne p now pr hp hpr
  simp only [PriceService.get_price, hp] at hpr
  have h := Option.some.inj hpr
  subst h
  rfl

/-- C7 witness: the amended statement evaluated at the 0.15 report with the
50 percent code, whose computed breakdown is (0.15, 0.07, 50, success). -/
theorem C7_witness :
    c7report.price = some (3/20)
    ∧ PriceService.get_price c7report (some c7promo) false 0
        = some (Price.mk (3/20) (7/100) 50 PromocodeUsage.success)
    ∧ (Price.mk (3/20) (7/100) 50 PromocodeUsage.success).final_price
        = finalPriceFloat (3/20)
            (Price.mk (3/20) (7/100) 50 PromocodeUsage.success).discount :=
  ⟨rfl, by decide,
    C7_final_price_is_binary_float.1 c7report (some c7promo) false (3/20) 0
      (Price.mk (3/20) (7/100) 50 PromocodeUsage.success) rfl (by decide)⟩

end
